import Mathlib

/-!
Verification development for the `genetic-miniapp` backend
(`src/backend/main.py`), a FastAPI booking service for a single doctor.

The embedding below translates the relevant Python functions into Lean:

* instants (`datetime` values in a fixed UTC frame) are modelled as `Int`
  minutes since the epoch 1970-01-01T00:00Z; calendar dates are `Int` day
  numbers (days since 1970-01-01), converted to/from `(year, month, day)`
  with the standard civil-calendar algorithm;
* Python `str.split` / `int(...)` / slicing / `urllib.parse.unquote_plus`
  are modelled character-by-character on `List Char`;
* the SQLite bookings table is modelled as a list of rows, with the
  `UNIQUE(availability_id)` constraint and the commit/rollback behaviour
  made explicit (a `storageOk` flag models an otherwise-failing storage
  layer, which the endpoint's `except` handler turns into a 409);
* the HMAC-SHA256 digest used by `/auth/verify` is an abstract parameter
  `H : String → String → String` (bot token, data-check string ↦ hex
  digest); everything around it (query-string parsing, hash popping,
  sorted data-check-string construction, comparison) is translated.
-/

/-! ## Calendar helpers -/

/-- Days from civil date to day number (days since 1970-01-01),
standard civil-calendar conversion, valid for all dates. -/
def daysFromCivil (y m d : Int) : Int :=
  let y' := y - (if m ≤ 2 then 1 else 0)
  let era := Int.fdiv y' 400
  let yoe := y' - era * 400
  let mp := Int.emod (m + 9) 12
  let doy := Int.fdiv (153 * mp + 2) 5 + d - 1
  let doe := yoe * 365 + Int.fdiv yoe 4 - Int.fdiv yoe 100 + doy
  era * 146097 + doe - 719468

/-- Inverse of `daysFromCivil`: day number to `(year, month, day)`. -/
def civilFromDays (z : Int) : Int × Int × Int :=
  let z' := z + 719468
  let era := Int.fdiv z' 146097
  let doe := z' - era * 146097
  let yoe := Int.fdiv (doe - Int.fdiv doe 1460 + Int.fdiv doe 36524 - Int.fdiv doe 146096) 365
  let y := yoe + era * 400
  let doy := doe - (365 * yoe + Int.fdiv yoe 4 - Int.fdiv yoe 100)
  let mp := Int.fdiv (5 * doy + 2) 153
  let d := doy - Int.fdiv (153 * mp + 2) 5 + 1
  let m := mp + (if mp < 10 then 3 else -9)
  (y + (if m ≤ 2 then 1 else 0), m, d)

/-- Python `datetime.weekday()`: Monday = 0 .. Sunday = 6.
Day 0 (1970-01-01) was a Thursday, hence the +3. -/
def pyWeekday (z : Int) : Int := Int.emod (z + 3) 7

/-- Leap-year test (as used by Python's `datetime` constructor). -/
def isLeapYear (y : Int) : Bool :=
  decide ((y % 4 = 0 ∧ y % 100 ≠ 0) ∨ y % 400 = 0)

/-- Length of a month, for `datetime` argument validation. -/
def daysInMonth (y m : Int) : Int :=
  if m = 2 then (if isLeapYear y then 29 else 28)
  else if m = 4 ∨ m = 6 ∨ m = 9 ∨ m = 11 then 30
  else 31

/-- Validity of `datetime(y, m, d, hour, 0, 0)`: Python raises `ValueError`
outside these bounds (`MINYEAR = 1`, `MAXYEAR = 9999`). -/
def validDateTime (y m d hour : Int) : Bool :=
  decide (1 ≤ y ∧ y ≤ 9999 ∧ 1 ≤ m ∧ m ≤ 12 ∧ 1 ≤ d ∧ d ≤ daysInMonth y m ∧
    0 ≤ hour ∧ hour ≤ 23)

/-! ## Decimal rendering (Python f-strings) -/

/-- Decimal digit to character. -/
def digitChar (n : Nat) : Char := Char.ofNat (48 + n)

/-- Fuel-driven digit expansion (fuel ≥ number to render suffices). -/
def natDigitsAux : Nat → Nat → List Char
  | 0, _ => []
  | fuel + 1, n => if n < 10 then [digitChar n]
      else natDigitsAux fuel (n / 10) ++ [digitChar (n % 10)]

/-- Decimal digits of `n`, most significant first. -/
def natDigits (n : Nat) : List Char := natDigitsAux (n + 1) n

/-- Python `f"{n:0wd}"`: zero-pad the decimal rendering to width `w`. -/
def padNum (w : Nat) (n : Nat) : List Char :=
  let ds := natDigits n
  List.replicate (w - ds.length) '0' ++ ds

/-- Python `str(date)` = `f"{y:04d}-{m:02d}-{d:02d}"` for the calendar date
with day number `z`. -/
def dateChars (z : Int) : List Char :=
  let c := civilFromDays z
  padNum 4 c.1.toNat ++ '-' :: (padNum 2 c.2.1.toNat ++ '-' :: padNum 2 c.2.2.toNat)

/-! ## Python string primitives -/

/-- Worker for `pySplit`; `acc` holds the current field reversed. -/
def pySplitAux (delim : Char) : List Char → List Char → List (List Char)
  | [], acc => [acc.reverse]
  | c :: cs, acc =>
      if c = delim then acc.reverse :: pySplitAux delim cs []
      else pySplitAux delim cs (c :: acc)

/-- Python `s.split(delim)` (no maxsplit): splits on every occurrence;
`"".split("-") == [""]`, `"a--b".split("-") == ["a", "", "b"]`. -/
def pySplit (delim : Char) (s : List Char) : List (List Char) :=
  pySplitAux delim s []

/-- Python `s.split(delim, 1)` restricted to the first two fields:
`none` when the delimiter does not occur. -/
def pySplit1 (delim : Char) : List Char → Option (List Char × List Char)
  | [] => none
  | c :: cs =>
      if c = delim then some ([], cs)
      else (pySplit1 delim cs).map (fun p => (c :: p.1, p.2))

/-- Value of a decimal digit character. -/
def digitVal (c : Char) : Option Nat :=
  if '0' ≤ c ∧ c ≤ '9' then some (c.toNat - 48) else none

/-- Digits-only decimal parse; `none` on the empty list or a non-digit. -/
def digitsVal (s : List Char) : Option Nat :=
  match s with
  | [] => none
  | _ => s.foldl (fun acc c => acc.bind fun a => (digitVal c).map (fun d => a * 10 + d))
      (some 0)

/-- Python `int(str)` on the strings reachable here: an optional sign
followed by at least one decimal digit (whitespace stripping and digit
underscores never arise in this code's inputs). -/
def pyInt (s : List Char) : Option Int :=
  match s with
  | '+' :: rest => (digitsVal rest).map Int.ofNat
  | '-' :: rest => (digitsVal rest).map (fun n => -(n : Int))
  | _ => (digitsVal s).map Int.ofNat

/-! ## Availability generation (`get_availability_alias`, lines 438-471;
`get_availability` at lines 306-347 shares the same generator logic) -/

/-- `MSK_OFFSET = timedelta(hours=3)` in minutes. -/
def MSK_OFFSET_MIN : Int := 180

/-- Output record of `GET /availability` (`AvailabilityAliasOut`); the
ISO instant strings are modelled by the instants themselves, in minutes
since the epoch. -/
structure AvailabilityAliasOut where
  id : String
  start_utc : Int
  end_utc : Int
  format : String
deriving DecidableEq, Repr

/-- Slot construction from the loop body: `slot_id` is
`f"{start_msk.date()}-{hour:02d}-{f}"` where `start_msk` is the start
instant (its calendar date is `start ÷ 1440` flooring), and
`end = start + 1 hour`. -/
def mkSlot (startMin : Int) (hour : Nat) (f : String) : AvailabilityAliasOut :=
  { id := String.mk (dateChars (Int.fdiv startMin 1440) ++ '-' :: (padNum 2 hour ++ '-' :: f.toList))
    start_utc := startMin
    end_utc := startMin + 60
    format := f }

/-- Python `range(a, b)`. -/
def pyRange (a b : Nat) : List Nat := (List.range b).drop a

/-- One iteration of the day loop: if the reference-zone (MSK) day `z` is a
weekday, emit one slot per hour in `range(10, 18)` skipping 12 and 15;
`start = datetime(mskY, mskM, mskD, hour, tzinfo=utc) - MSK_OFFSET`;
format is `online` for even hours, `offline` for odd; slots not matching a
non-`any` filter are dropped. Weekend days emit nothing. -/
def slotsForDay (z : Int) (format : String) : List AvailabilityAliasOut :=
  if pyWeekday z < 5 then
    (pyRange 10 18).filterMap fun hour =>
      if hour = 12 ∨ hour = 15 then none
      else
        let startMin : Int := z * 1440 + Int.ofNat hour * 60 - MSK_OFFSET_MIN
        let f := if hour % 2 = 0 then "online" else "offline"
        if format ≠ "any" ∧ f ≠ format then none
        else some (mkSlot startMin hour f)
  else []

/-- The MSK calendar day of the loop variable `day + MSK_OFFSET`: adding
3 hours rolls into the next day exactly when the time-of-day is ≥ 21:00. -/
def mskDayOf (day : Int) (minutes : Nat) : Int :=
  if 1440 ≤ minutes + 180 then day + 1 else day

/-- The `while day.date() <= to_dt_utc.date()` loop. Each iteration emits
the slots for the MSK day of the current instant and then advances to the
next UTC midnight (`(day + timedelta(days=1)).replace(hour=0, ...)`), so
only the first iteration sees a nonzero time-of-day. `fuel` bounds the
iteration count; the caller passes exactly the number of loop entries. -/
def availabilityLoop (format : String) (toDay : Int) :
    Nat → Int → Nat → List AvailabilityAliasOut
  | 0, _, _ => []
  | fuel + 1, day, minutes =>
      if day ≤ toDay then
        slotsForDay (mskDayOf day minutes) format ++
          availabilityLoop format toDay fuel (day + 1) 0
      else []

/-- `GET /availability` (`get_availability_alias`): the parsed `from`
datetime is `(fromDay, fromMin)`, the parsed `to` datetime is
`(toDay, toMin)`; only `to`'s calendar date is ever read. The loop runs
once per UTC calendar day from `fromDay` to `toDay` inclusive. -/
def getAvailabilityAlias (fromDay : Int) (fromMin : Nat) (toDay : Int) (_toMin : Nat)
    (format : String) : List AvailabilityAliasOut :=
  availabilityLoop format toDay (toDay - fromDay + 1).toNat fromDay fromMin

/-! Sanity examples (generator output for Monday 2024-01-01). -/

example : daysFromCivil 2024 1 1 = 19723 := by decide

example : pyWeekday 19723 = 0 := by decide

example : (getAvailabilityAlias 19723 0 19723 0 "any").map (fun s => s.id) =
    ["2024-01-01-10-online", "2024-01-01-11-offline", "2024-01-01-13-offline",
     "2024-01-01-14-online", "2024-01-01-16-online", "2024-01-01-17-offline"] := by
  decide

/-! ## Booking (`create_booking`, lines 364-397) -/

/-- Decoding of `availability_id` (lines 367-375):
`date_part, hour_part, fmt = payload.availability_id.split("-")` followed by
`y, m, d = map(int, date_part.split("-"))`, `hour = int(hour_part)` and the
`datetime(y, m, d, hour, 0, 0, tzinfo=utc)` construction; any exception
yields `none` (the endpoint then answers 400 "invalid availability_id").
On success the result is `(start, end)` in minutes since the epoch. -/
def createBookingParse (s : String) : Option (Int × Int) :=
  match pySplit '-' s.toList with
  | [datePart, hourPart, _fmt] =>
      match pySplit '-' datePart with
      | [ys, ms, ds] =>
          match pyInt ys, pyInt ms, pyInt ds, pyInt hourPart with
          | some y, some m, some d, some hour =>
              if validDateTime y m d hour then
                let startMin := daysFromCivil y m d * 1440 + hour * 60
                some (startMin, startMin + 60)
              else none
          | _, _, _, _ => none
      | _ => none
  | _ => none

/-- A persisted row of the `bookings` table (contact metadata columns are
irrelevant to the claims and omitted). -/
structure LedgerRow where
  id : Nat
  availability_id : String
  start_utc : Int
  end_utc : Int
deriving DecidableEq, Repr

/-- Outcome of `POST /booking`: 200 with `BookingOut`, 409 "slot already
booked", or 400 "invalid availability_id". -/
inductive BookingResult
  | created (bookingId : Nat) (startUtc endUtc : Int)
  | conflict
  | invalidId
deriving DecidableEq, Repr

/-- Whether a `BookingResult` is the success case. -/
def isCreated : BookingResult → Bool
  | .created _ _ _ => true
  | _ => false

/-- The `try: db.add(bk); db.commit() ... except: db.rollback(); raise 409`
block (lines 377-397): the insert succeeds iff the storage layer is up
(`storageOk`) and no row with this `availability_id` exists — the
`UNIQUE(availability_id)` constraint; any storage exception rolls the
transaction back (the ledger is returned unchanged) and is surfaced as
409 Conflict. The fresh primary key is modelled as `length + 1`. -/
def bookingAttempt (ledger : List LedgerRow) (sid : String) (startMin endMin : Int)
    (storageOk : Bool) : BookingResult × List LedgerRow :=
  if storageOk && ledger.all (fun r => r.availability_id != sid) then
    let bid := ledger.length + 1
    (.created bid startMin endMin, ledger ++ [⟨bid, sid, startMin, endMin⟩])
  else
    (.conflict, ledger)

/-- `POST /booking` (`create_booking`): decode the id, answering 400 on any
decoding failure before touching the database, else attempt the unique
insert. -/
def createBooking (ledger : List LedgerRow) (sid : String) (storageOk : Bool) :
    BookingResult × List LedgerRow :=
  match createBookingParse sid with
  | none => (.invalidId, ledger)
  | some (startMin, endMin) => bookingAttempt ledger sid startMin endMin storageOk

/-! ## Reviews (`get_reviews`, lines 290-295; `get_reviews_alias`, 433-435) -/

/-- A seeded review asset (`ReviewAssetOut`). -/
structure ReviewAssetOut where
  id : String
  image_url : String
  source : Option String
  date : Option String
  caption : Option String
deriving DecidableEq, Repr

/-- The in-memory seed list `REVIEWS` (lines 260-265). -/
def REVIEWS : List ReviewAssetOut :=
  [⟨"rev1", "https://images.unsplash.com/photo-1526366003456-2c7c28bf1c66?w=1200&auto=format&fit=crop", some "instagram", none, none⟩,
   ⟨"rev2", "https://images.unsplash.com/photo-1517245386807-bb43f82c33c4?w=1200&auto=format&fit=crop", some "whatsapp", none, none⟩,
   ⟨"rev3", "https://images.unsplash.com/photo-1515165562835-c3b8c5a55dca?w=1200&auto=format&fit=crop", none, none, none⟩,
   ⟨"rev4", "https://images.unsplash.com/photo-1557426272-fc759fdf7a8d?w=1200&auto=format&fit=crop", none, none, none⟩]

/-- The doctor id of the single seeded `DOCTOR` record. -/
def DOCTOR_id : String := "doc-1"

/-- Python list slicing `xs[start:stop]` (step 1): negative indices count
from the end, and both bounds are clamped to `[0, len(xs)]`. -/
def pySlice {α : Type} (xs : List α) (start stop : Int) : List α :=
  let n : Int := xs.length
  let s := if start < 0 then max (n + start) 0 else min start n
  let e := if stop < 0 then max (n + stop) 0 else min stop n
  (xs.drop s.toNat).take (e - s).toNat

/-- `GET /doctor/{doctor_id}/review-assets` (`get_reviews`): 404 (`none`)
for an unknown doctor, else `{items: REVIEWS[offset : offset+limit],
total: len(REVIEWS)}`. -/
def getReviews (doctorId : String) (offset limit : Int) :
    Option (List ReviewAssetOut × Nat) :=
  if doctorId ≠ DOCTOR_id then none
  else some (pySlice REVIEWS offset (offset + limit), REVIEWS.length)

/-- `GET /reviews` (`get_reviews_alias`): the same slice, without the
doctor check or the total. -/
def getReviewsAlias (offset limit : Int) : List ReviewAssetOut :=
  pySlice REVIEWS offset (offset + limit)

/-! ## Auth (`verify_init_data`, lines 134-181; `auth_verify`, 184-191) -/

/-- Value of a hexadecimal digit character. -/
def hexVal (c : Char) : Option Nat :=
  if '0' ≤ c ∧ c ≤ '9' then some (c.toNat - 48)
  else if 'a' ≤ c ∧ c ≤ 'f' then some (c.toNat - 87)
  else if 'A' ≤ c ∧ c ≤ 'F' then some (c.toNat - 70)
  else none

/-- `urllib.parse.unquote_plus` at the byte level: `+` becomes a space and
`%XX` hex escapes are decoded (invalid escapes are kept verbatim). The
UTF-8 reassembly of multi-byte escapes is immaterial to the claims. -/
def unquotePlus : List Char → List Char
  | [] => []
  | '+' :: rest => ' ' :: unquotePlus rest
  | '%' :: c1 :: c2 :: rest =>
      match hexVal c1, hexVal c2 with
      | some h1, some h2 => Char.ofNat (16 * h1 + h2) :: unquotePlus rest
      | _, _ => '%' :: unquotePlus (c1 :: c2 :: rest)
  | c :: rest => c :: unquotePlus rest

/-- Python dict assignment `kv[k] = v` on an insertion-ordered association
list: overwrite in place if the key exists, else append. -/
def dictInsert (kv : List (String × String)) (k v : String) : List (String × String) :=
  if kv.any (fun p => p.1 == k) then
    kv.map (fun p => if p.1 = k then (k, v) else p)
  else kv ++ [(k, v)]

/-- Lookup in the association list (Python `kv[k]` / `kv.get(k)`). -/
def kvLookup (k : String) : List (String × String) → Option String
  | [] => none
  | p :: ps => if p.1 = k then some p.2 else kvLookup k ps

/-- Python `kv.pop(k)`: drop the entry for `k`. -/
def kvRemove (k : String) (kv : List (String × String)) : List (String × String) :=
  kv.filter (fun p => p.1 ≠ k)

/-- The initData parsing loop (lines 145-153): split on `&`, skip empty
parts and parts without `=`, split each part on the first `=`, and store
`kv[k] = unquote_plus(v)`. -/
def parseKv (s : String) : List (String × String) :=
  (pySplit '&' s.toList).foldl
    (fun kv p =>
      if p = [] then kv
      else
        match pySplit1 '=' p with
        | none => kv
        | some (k, v) => dictInsert kv (String.mk k) (String.mk (unquotePlus v)))
    []

/-- Insertion of a string into a `≤`-sorted list (`sorted` is realised as
an insertion sort; Python sorts strings by code points, as `≤` does). -/
def insertSorted (s : String) : List String → List String
  | [] => [s]
  | t :: ts => if s ≤ t then s :: t :: ts else t :: insertSorted s ts

/-- Python `sorted` on strings. -/
def sortStrings (l : List String) : List String := l.foldr insertSorted []

/-- The data-check-string (lines 159-161): `\n`-joined `k=v` pairs of the
parsed dict minus its `hash` entry, keys sorted. -/
def dataCheckString (s : String) : String :=
  let kv := kvRemove "hash" (parseKv s)
  String.intercalate "\n"
    ((sortStrings (kv.map (fun p => p.1))).map
      (fun k => k ++ "=" ++ ((kvLookup k kv).getD "")))

/-- Whether a string is ASCII-only (Python `str.isascii()`). -/
def isAsciiStr (s : String) : Bool := s.toList.all (fun c => c.toNat < 128)

/-- Failures of `verify_init_data`: 400 "hash is missing",
401 "initData verification failed", or an uncaught `TypeError` raised by
`hmac.compare_digest` when one of its `str` operands is not ASCII-only
(surfaced by the framework as a 500 server error). -/
inductive VerifyError
  | hashMissing
  | verificationFailed
  | typeError
deriving DecidableEq, Repr

/-- `verify_init_data(init_data, bot_token)`, with the HMAC-SHA256 digest
pipeline (secret key derivation plus hex digest of the data-check-string)
abstracted as `H`. Pops `hash` (missing or empty → 400), then runs
`hmac.compare_digest(calc_hash, provided_hash)`: with two `str` operands
CPython first requires both to be ASCII-only — otherwise it raises
`TypeError`, which nothing in this code catches — and only then compares
for equality; a mismatch is 401, and on success the remaining parsed
fields are returned. -/
def verifyInitData (H : String → String → String) (initData botToken : String) :
    Except VerifyError (List (String × String)) :=
  match kvLookup "hash" (parseKv initData) with
  | none => .error .hashMissing
  | some providedHash =>
      if providedHash = "" then .error .hashMissing
      else if isAsciiStr (H botToken (dataCheckString initData)) && isAsciiStr providedHash then
        if H botToken (dataCheckString initData) ≠ providedHash then
          .error .verificationFailed
        else .ok (kvRemove "hash" (parseKv initData))
      else .error .typeError

/-- Responses of `POST /auth/verify` (the further JSON decoding of the
`user` field does not affect any claim; the raw value is returned).
`serverError` is the framework's 500 answer to an exception that escapes
the handler. -/
inductive AuthResult
  | devOk (warning : String)
  | okUser (user : Option String)
  | badRequest (detail : String)
  | unauthorized (detail : String)
  | serverError
deriving DecidableEq, Repr

/-- Python truthiness of an optional string: `None` and `""` are falsy. -/
def pyFalsyStr : Option String → Bool
  | none => true
  | some t => t == ""

/-- `POST /auth/verify` (`auth_verify`): with no (or empty) `BOT_TOKEN`
configured, a permissive dev-mode `ok=true` with a warning; with a token,
a missing (or empty) `initData` is 400; otherwise `verify_init_data`
decides between 400, 401 and success. -/
def authVerify (H : String → String → String) (botToken : Option String)
    (initData : Option String) : AuthResult :=
  if pyFalsyStr botToken then .devOk "BOT_TOKEN not set — dev mode"
  else if pyFalsyStr initData then .badRequest "initData required"
  else
    match verifyInitData H (initData.getD "") (botToken.getD "") with
    | .error .hashMissing => .badRequest "hash is missing"
    | .error .verificationFailed => .unauthorized "initData verification failed"
    | .error .typeError => .serverError
    | .ok kv => .okUser (kvLookup "user" kv)

/-! ## Helper lemmas -/

/-- Fields produced by `pySplitAux` never contain the delimiter, provided
the accumulator does not. -/
lemma pySplitAux_no_delim (d : Char) :
    ∀ (xs acc : List Char), (∀ c ∈ acc, c ≠ d) →
      ∀ l ∈ pySplitAux d xs acc, ∀ c ∈ l, c ≠ d := by
  intro xs
  induction xs with
  | nil =>
      intro acc hacc l hl c hc
      simp only [pySplitAux, List.mem_singleton] at hl
      subst hl
      exact hacc c (List.mem_reverse.mp hc)
  | cons x xs ih =>
      intro acc hacc l hl c hc
      by_cases hx : x = d
      · rw [pySplitAux, if_pos hx] at hl
        rcases List.mem_cons.mp hl with h | h
        · subst h; exact hacc c (List.mem_reverse.mp hc)
        · exact ih [] (by simp) l h c hc
      · rw [pySplitAux, if_neg hx] at hl
        refine ih (x :: acc) ?_ l hl c hc
        intro c' hc'
        rcases List.mem_cons.mp hc' with h | h
        · subst h; exact hx
        · exact hacc c' h

/-- Every field of a Python `split` is delimiter-free. -/
lemma pySplit_no_delim (d : Char) (s : List Char) :
    ∀ l ∈ pySplit d s, ∀ c ∈ l, c ≠ d :=
  pySplitAux_no_delim d s [] (by simp)

/-- On a delimiter-free string, `pySplitAux` yields a single field. -/
lemma pySplitAux_single (d : Char) :
    ∀ (xs acc : List Char), (∀ c ∈ xs, c ≠ d) →
      pySplitAux d xs acc = [acc.reverse ++ xs] := by
  intro xs
  induction xs with
  | nil => intro acc _; simp [pySplitAux]
  | cons x xs ih =>
      intro acc hxs
      rw [pySplitAux, if_neg (hxs x (List.mem_cons_self x xs))]
      rw [ih (x :: acc) (fun c hc => hxs c (List.mem_cons_of_mem x hc))]
      simp

/-- Python `split` on a delimiter-free string returns that string alone. -/
lemma pySplit_single (d : Char) (xs : List Char) (h : ∀ c ∈ xs, c ≠ d) :
    pySplit d xs = [xs] := by
  rw [pySplit, pySplitAux_single d xs [] h]
  simp

/-- The `split("-")` in `create_booking` unpacks the id into exactly three
names, so the subsequent `date_part.split("-")` — whose argument is
delimiter-free — can never yield the three numeric components expected of
it: decoding fails on every input string. -/
lemma createBookingParse_eq_none (s : String) : createBookingParse s = none := by
  unfold createBookingParse
  rcases hp : pySplit '-' s.toList with _ | ⟨a, _ | ⟨b, _ | ⟨c, _ | rest⟩⟩⟩
  · rfl
  · rfl
  · rfl
  · have ha : ∀ ch ∈ a, ch ≠ '-' :=
      pySplit_no_delim '-' s.toList a (hp ▸ List.mem_cons_self a _)
    dsimp only
    rw [pySplit_single '-' a ha]
  · rfl

/-! ## Claim theorems -/

/-- C1: the claim fails on the code (code bug). The spec's round-trip law
says decoding a generated slot id with the right-anchored three-way split
recovers `(date, hour, format)`. The code instead runs
`payload.availability_id.split("-")` and unpacks it into three names; a
generated id such as `2024-01-01-10-online` splits into five fields, so
the unpacking raises and the endpoint answers 400 for every generated id —
indeed `createBookingParse` returns `none` on every string whatsoever.
Below: decoding fails on all strings, the generator really does emit ids
of the documented shape, and booking a freshly generated id is rejected
as an invalid identifier. -/
theorem c1_roundtrip_fails :
    (∀ s : String, createBookingParse s = none) ∧
    (getAvailabilityAlias 19723 0 19723 0 "any").map (fun s => s.id) =
      ["2024-01-01-10-online", "2024-01-01-11-offline", "2024-01-01-13-offline",
       "2024-01-01-14-online", "2024-01-01-16-online", "2024-01-01-17-offline"] ∧
    createBooking [] "2024-01-01-10-online" true = (.invalidId, []) := by
  refine ⟨createBookingParse_eq_none, by decide, by decide⟩

/-- C2: the claim fails on the code (code bug, same root cause as C1).
Booking the generator-produced id `2024-01-01-10-online` twice does not
give one success and one conflict: both calls are rejected with 400
`invalid availability_id` (the id never parses), and the ledger stays
empty rather than holding exactly one row. -/
theorem c2_double_claim_never_succeeds :
    createBooking [] "2024-01-01-10-online" true = (.invalidId, []) ∧
    createBooking (createBooking [] "2024-01-01-10-online" true).2
        "2024-01-01-10-online" true = (.invalidId, []) := by
  constructor <;> decide

/-- C4: every string — so in particular every string that is not a
well-formed slot id, such as `"not-a-real-id"` — is rejected by
`POST /booking` with 400 `invalid availability_id` (InvalidIdentifier),
never with 409 Conflict, and the ledger is left unchanged whatever its
prior contents and whatever the storage layer would have done. The second
conjunct instantiates the claim's own example. -/
theorem c4_malformed_id_rejected :
    (∀ (sid : String) (ledger : List LedgerRow) (storageOk : Bool),
        createBooking ledger sid storageOk = (.invalidId, ledger)) ∧
    (∀ (ledger : List LedgerRow) (storageOk : Bool),
        createBooking ledger "not-a-real-id" storageOk = (.invalidId, ledger)) := by
  have huniv : ∀ (sid : String) (ledger : List LedgerRow) (storageOk : Bool),
      createBooking ledger sid storageOk = (.invalidId, ledger) := by
    intro sid ledger storageOk
    rw [createBooking, createBookingParse_eq_none]
  exact ⟨huniv, fun ledger storageOk => huniv "not-a-real-id" ledger storageOk⟩

/-- C6: failed claims persist nothing and storage failures surface as
Conflict. First conjunct: a storage-layer failure during the insert
attempt is answered with 409 Conflict and the transaction is rolled back
(ledger unchanged). Second conjunct: any `POST /booking` call that does
not return a created record leaves the ledger exactly as it was. -/
theorem c6_failed_claims_rollback :
    (∀ (ledger : List LedgerRow) (sid : String) (startMin endMin : Int),
        bookingAttempt ledger sid startMin endMin false = (.conflict, ledger)) ∧
    (∀ (ledger : List LedgerRow) (sid : String) (storageOk : Bool),
        isCreated (createBooking ledger sid storageOk).1 = false →
          (createBooking ledger sid storageOk).2 = ledger) := by
  constructor
  · intro ledger sid startMin endMin
    simp [bookingAttempt]
  · intro ledger sid storageOk h
    rw [createBooking] at h ⊢
    cases hp : createBookingParse sid with
    | none => rfl
    | some p =>
        obtain ⟨ps, pe⟩ := p
        rw [hp] at h
        dsimp only at h ⊢
        by_cases hc : (storageOk && ledger.all (fun r => r.availability_id != sid)) = true
        · unfold bookingAttempt at h
          rw [if_pos hc] at h
          simp [isCreated] at h
        · unfold bookingAttempt
          rw [if_neg hc]

/-- Witness for C6 at concrete inputs: a storage failure on an empty
ledger yields Conflict with the ledger unchanged, and a failing claim
(here an unparsable id) leaves the ledger unchanged. -/
theorem c6_failed_claims_rollback_witness :
    bookingAttempt [] "2024-01-01-10-online" 28401540 28401600 false = (.conflict, []) ∧
    (createBooking [⟨1, "x", 0, 60⟩] "not-an-id" true).2 = [⟨1, "x", 0, 60⟩] :=
  ⟨c6_failed_claims_rollback.1 [] "2024-01-01-10-online" 28401540 28401600,
   c6_failed_claims_rollback.2 [⟨1, "x", 0, 60⟩] "not-an-id" true (by decide)⟩

/-- C9: when the requested range is empty (`to` date strictly before
`from` date) the availability endpoint returns the empty list and signals
no error. -/
theorem c9_inverted_range_empty :
    ∀ (fromDay : Int) (fromMin : Nat) (toDay : Int) (toMin : Nat) (fmt : String),
      toDay < fromDay → getAvailabilityAlias fromDay fromMin toDay toMin fmt = [] := by
  intro fromDay fromMin toDay toMin fmt h
  rw [getAvailabilityAlias]
  have hz : (toDay - fromDay + 1).toNat = 0 := by omega
  rw [hz]
  rfl

/-- Witness for C9: 2024-01-02 down to 2024-01-01 yields no slots. -/
theorem c9_inverted_range_empty_witness :
    getAvailabilityAlias 19724 0 19723 0 "any" = [] :=
  c9_inverted_range_empty 19724 0 19723 0 "any" (by decide)

/-- The inclusive list of day numbers `a, a+1, ..., b`. -/
def intRange (a b : Int) : List Int :=
  (List.range (b - a + 1).toNat).map (fun i => a + Int.ofNat i)

/-- The day loop started at a midnight instant concatenates the per-day
slot lists of the consecutive days, one per iteration. -/
lemma availabilityLoop_join (fmt : String) :
    ∀ (n : Nat) (day : Int),
      availabilityLoop fmt (day + n) (n + 1) day 0 =
        ((List.range (n + 1)).map (fun i => day + Int.ofNat i)).flatMap
          (fun z => slotsForDay z fmt) := by
  intro n
  induction n with
  | zero =>
      intro day
      rw [availabilityLoop]
      rw [if_pos (by omega : day ≤ day + (0 : Nat))]
      have hm : mskDayOf day 0 = day := by rw [mskDayOf, if_neg (by omega)]
      rw [hm]
      simp [availabilityLoop, List.range_succ]
  | succ n ih =>
      intro day
      rw [availabilityLoop]
      have hle : day ≤ day + ((n + 1 : Nat) : Int) := by push_cast; omega
      rw [if_pos hle]
      have hm : mskDayOf day 0 = day := by rw [mskDayOf, if_neg (by omega)]
      rw [hm]
      have harg : day + ((n + 1 : Nat) : Int) = (day + 1) + (n : Int) := by
        push_cast; ring
      rw [harg, ih (day + 1)]
      rw [List.range_succ_eq_map (n + 1)]
      simp only [List.map_cons, List.flatMap_cons, List.map_map]
      congr 1
      · congr 1
        simp
      · congr 1
        apply List.map_congr_left
        intro i _
        simp only [Function.comp_apply, Nat.succ_eq_add_one]
        push_cast [Int.ofNat_eq_natCast]
        ring

/-- C3: confirmed. For date-only range inputs (the documented
`YYYY-MM-DD` form, i.e. midnight times) the availability endpoint output
is the concatenation, day by day, of the per-day generator output; a
reference-zone weekday contributes exactly the six slots at hours
10, 11, 13, 14, 16, 17 with format `online` exactly at the even hours,
and a reference-zone weekend day contributes no slots. -/
theorem c3_weekday_slot_pattern :
    (∀ (fromDay toDay : Int) (toMin : Nat), fromDay ≤ toDay →
        getAvailabilityAlias fromDay 0 toDay toMin "any" =
          (intRange fromDay toDay).flatMap (fun z => slotsForDay z "any")) ∧
    (∀ z : Int, pyWeekday z < 5 →
        slotsForDay z "any" =
          [mkSlot (z * 1440 + 10 * 60 - 180) 10 "online",
           mkSlot (z * 1440 + 11 * 60 - 180) 11 "offline",
           mkSlot (z * 1440 + 13 * 60 - 180) 13 "offline",
           mkSlot (z * 1440 + 14 * 60 - 180) 14 "online",
           mkSlot (z * 1440 + 16 * 60 - 180) 16 "online",
           mkSlot (z * 1440 + 17 * 60 - 180) 17 "offline"]) ∧
    (∀ z : Int, 5 ≤ pyWeekday z → slotsForDay z "any" = []) := by
  refine ⟨?_, ?_, ?_⟩
  · intro fromDay toDay toMin hle
    rw [getAvailabilityAlias, intRange]
    set k := (toDay - fromDay).toNat with hk
    have hn : (toDay - fromDay + 1).toNat = k + 1 := by omega
    rw [hn]
    have harg : toDay = fromDay + (k : Int) := by omega
    rw [harg]
    exact availabilityLoop_join "any" k fromDay
  · intro z h
    rw [slotsForDay, if_pos h]
    rfl
  · intro z h
    rw [slotsForDay, if_neg (by omega)]

/-- Witness for C3 at concrete inputs: the single Monday 2024-01-01
(day 19723) produces its six alternating slots, and the Saturday
2024-01-06 (day 19728) produces none. -/
theorem c3_weekday_slot_pattern_witness :
    getAvailabilityAlias 19723 0 19723 0 "any" =
      (intRange 19723 19723).flatMap (fun z => slotsForDay z "any") ∧
    slotsForDay 19723 "any" =
      [mkSlot (19723 * 1440 + 10 * 60 - 180) 10 "online",
       mkSlot (19723 * 1440 + 11 * 60 - 180) 11 "offline",
       mkSlot (19723 * 1440 + 13 * 60 - 180) 13 "offline",
       mkSlot (19723 * 1440 + 14 * 60 - 180) 14 "online",
       mkSlot (19723 * 1440 + 16 * 60 - 180) 16 "online",
       mkSlot (19723 * 1440 + 17 * 60 - 180) 17 "offline"] ∧
    slotsForDay 19728 "any" = [] :=
  ⟨c3_weekday_slot_pattern.1 19723 19723 0 (by decide),
   c3_weekday_slot_pattern.2.1 19723 (by decide),
   c3_weekday_slot_pattern.2.2 19728 (by decide)⟩

/-- C5: counterexample. Both requests denote the calendar date
2024-01-01 (day number 19723) for `from` and `to`; the first carries
time-of-day 22:00 (1320 minutes), the second midnight. Adding the +3:00
reference offset rolls 22:00 into the next reference-zone day, so the
first request returns the slots of Tuesday 2024-01-02 while the second
returns those of Monday 2024-01-01: time-of-day is not ignored. -/
theorem c5_time_of_day_counterexample :
    daysFromCivil 2024 1 1 = 19723 ∧
    getAvailabilityAlias 19723 1320 19723 0 "any" ≠
      getAvailabilityAlias 19723 0 19723 0 "any" := by
  constructor
  · decide
  · decide

/-- C5 as amended: the time-of-day of the `to` parameter is always
ignored, and the time-of-day of the `from` parameter is ignored whenever
adding the +3:00 reference offset does not cross midnight (time before
21:00); only then do two requests for the same calendar dates return the
same slots. -/
theorem c5_time_of_day_amended :
    ∀ (fromDay : Int) (fromMin : Nat) (toDay : Int) (toMin toMin' : Nat) (fmt : String),
      fromMin + 180 < 1440 →
        getAvailabilityAlias fromDay fromMin toDay toMin fmt =
          getAvailabilityAlias fromDay 0 toDay toMin' fmt := by
  intro fromDay fromMin toDay toMin toMin' fmt h
  rw [getAvailabilityAlias, getAvailabilityAlias]
  cases hn : (toDay - fromDay + 1).toNat with
  | zero => rfl
  | succ n =>
      have hm1 : mskDayOf fromDay fromMin = fromDay := by
        rw [mskDayOf, if_neg (by omega : ¬ (1440 ≤ fromMin + 180))]
      have hm0 : mskDayOf fromDay 0 = fromDay := by
        rw [mskDayOf, if_neg (by omega : ¬ (1440 ≤ 0 + 180))]
      rw [availabilityLoop, availabilityLoop, hm1, hm0]

/-- Witness for C5-as-amended: 10:00 versus midnight on the same Monday,
with different `to` times, give identical availability. -/
theorem c5_time_of_day_amended_witness :
    getAvailabilityAlias 19723 600 19723 3 "any" =
      getAvailabilityAlias 19723 0 19723 9 "any" :=
  c5_time_of_day_amended 19723 600 19723 3 9 "any" (by decide)

/-- Every slot emitted for one day has `end = start + 60` minutes. -/
lemma slotsForDay_end_eq (z : Int) (fmt : String) (s : AvailabilityAliasOut)
    (hs : s ∈ slotsForDay z fmt) : s.end_utc = s.start_utc + 60 := by
  rw [slotsForDay] at hs
  by_cases hw : pyWeekday z < 5
  · rw [if_pos hw] at hs
    rcases List.mem_filterMap.mp hs with ⟨hour, _, hf⟩
    dsimp only at hf
    split_ifs at hf <;>
      first
        | exact Option.noConfusion hf
        | (injection hf with hf; subst hf; rfl)
  · rw [if_neg hw] at hs
    cases hs

/-- Every slot emitted by the day loop has `end = start + 60` minutes. -/
lemma availabilityLoop_end_eq (fmt : String) (toDay : Int) :
    ∀ (fuel : Nat) (day : Int) (minutes : Nat) (s : AvailabilityAliasOut),
      s ∈ availabilityLoop fmt toDay fuel day minutes →
        s.end_utc = s.start_utc + 60 := by
  intro fuel
  induction fuel with
  | zero => intro day minutes s hs; cases hs
  | succ fuel ih =>
      intro day minutes s hs
      rw [availabilityLoop] at hs
      by_cases hle : day ≤ toDay
      · rw [if_pos hle] at hs
        rcases List.mem_append.mp hs with h | h
        · exact slotsForDay_end_eq _ fmt s h
        · exact ih (day + 1) 0 s h
      · rw [if_neg hle] at hs
        cases hs

/-- C8: confirmed. Every slot emitted by the availability endpoint has
`end = start + 60` minutes; and the concrete example — Monday 2024-01-01
(day 19723) with `format=online` — returns exactly the slots at hours
10, 14 and 16, each one hour long (instants in minutes since the epoch:
day 19723 starts at 28401120). -/
theorem c8_hour_long_slots :
    (∀ (fromDay : Int) (fromMin : Nat) (toDay : Int) (toMin : Nat) (fmt : String)
        (s : AvailabilityAliasOut),
        s ∈ getAvailabilityAlias fromDay fromMin toDay toMin fmt →
          s.end_utc = s.start_utc + 60) ∧
    getAvailabilityAlias 19723 0 19723 0 "online" =
      [mkSlot (19723 * 1440 + 10 * 60 - 180) 10 "online",
       mkSlot (19723 * 1440 + 14 * 60 - 180) 14 "online",
       mkSlot (19723 * 1440 + 16 * 60 - 180) 16 "online"] := by
  constructor
  · intro fromDay fromMin toDay toMin fmt s hs
    exact availabilityLoop_end_eq fmt toDay _ fromDay fromMin s hs
  · decide

/-- Witness for C8: the 10:00 slot of Monday 2024-01-01 ends exactly 60
minutes after it starts. -/
theorem c8_hour_long_slots_witness :
    (mkSlot (19723 * 1440 + 10 * 60 - 180) 10 "online").end_utc =
      (mkSlot (19723 * 1440 + 10 * 60 - 180) 10 "online").start_utc + 60 :=
  c8_hour_long_slots.1 19723 0 19723 0 "online" _ (by decide)

/-- C7: counterexample to the claim as stated. With a token configured
and the payload `hash=я`, the provided hash is present, non-empty, and
differs from the computed digest (`xx` under the constant digest function
used here), yet the endpoint does not answer 401 Unauthorized: the
non-ASCII provided hash makes `hmac.compare_digest` raise `TypeError`,
which escapes the handler as a 500 server error. -/
theorem c7_nonascii_hash_counterexample :
    kvLookup "hash" (parseKv "hash=я") = some "я" ∧
    (fun _ _ => "xx" : String → String → String) "t" (dataCheckString "hash=я") ≠ "я" ∧
    authVerify (fun _ _ => "xx") (some "t") (some "hash=я") ≠
      .unauthorized "initData verification failed" ∧
    authVerify (fun _ _ => "xx") (some "t") (some "hash=я") = .serverError := by
  refine ⟨by decide, by decide, by decide, by decide⟩

/-- C7 as amended. With no `BOT_TOKEN` configured, `POST /auth/verify`
answers `ok=true` with a warning for every request body; with a token
configured, a missing `initData` payload is rejected with 400 BadRequest;
a payload whose provided `hash` and computed digest are both ASCII-only
(the real digest, a hex string, always is) but differ is rejected with
401 Unauthorized; and when either comparand is not ASCII-only,
`hmac.compare_digest` raises `TypeError` and the request ends in a 500
server error instead. `H` abstracts the HMAC-SHA256 hex digest of the
data-check-string under the derived secret key. -/
theorem c7_auth_verify_modes :
    (∀ (H : String → String → String) (initData : Option String),
        authVerify H none initData = .devOk "BOT_TOKEN not set — dev mode") ∧
    (∀ (H : String → String → String) (tok : String), tok ≠ "" →
        authVerify H (some tok) none = .badRequest "initData required") ∧
    (∀ (H : String → String → String) (tok s hsh : String), tok ≠ "" →
        kvLookup "hash" (parseKv s) = some hsh → hsh ≠ "" →
        isAsciiStr (H tok (dataCheckString s)) = true → isAsciiStr hsh = true →
        H tok (dataCheckString s) ≠ hsh →
        authVerify H (some tok) (some s) =
          .unauthorized "initData verification failed") ∧
    (∀ (H : String → String → String) (tok s hsh : String), tok ≠ "" →
        kvLookup "hash" (parseKv s) = some hsh → hsh ≠ "" →
        (isAsciiStr (H tok (dataCheckString s)) && isAsciiStr hsh) = false →
        authVerify H (some tok) (some s) = .serverError) := by
  have hd : pyFalsyStr none = true := rfl
  have hfalsy : ∀ tok : String, tok ≠ "" → ¬ (pyFalsyStr (some tok) = true) := by
    intro tok htok
    simp [pyFalsyStr, htok]
  have hsne : ∀ s hsh : String, kvLookup "hash" (parseKv s) = some hsh → s ≠ "" := by
    intro s hsh hhash hs
    subst hs
    rw [show parseKv "" = [] from rfl] at hhash
    exact Option.noConfusion hhash
  refine ⟨?_, ?_, ?_, ?_⟩
  · intro H initData
    rw [authVerify, if_pos hd]
  · intro H tok htok
    rw [authVerify, if_neg (hfalsy tok htok), if_pos hd]
  · intro H tok s hsh htok hhash hne ha1 ha2 hH
    rw [authVerify, if_neg (hfalsy tok htok), if_neg (hfalsy s (hsne s hsh hhash))]
    dsimp only [Option.getD]
    rw [verifyInitData, hhash]
    dsimp only
    have hac : (isAsciiStr (H tok (dataCheckString s)) && isAsciiStr hsh) = true := by
      rw [ha1, ha2]
      rfl
    rw [if_neg hne, if_pos hac, if_pos hH]
  · intro H tok s hsh htok hhash hne hac
    rw [authVerify, if_neg (hfalsy tok htok), if_neg (hfalsy s (hsne s hsh hhash))]
    dsimp only [Option.getD]
    rw [verifyInitData, hhash]
    dsimp only
    have hac' : ¬ ((isAsciiStr (H tok (dataCheckString s)) && isAsciiStr hsh) = true) := by
      rw [hac]
      exact Bool.false_ne_true
    rw [if_neg hne, if_neg hac']

/-- Witness for C7-as-amended at concrete inputs: dev mode with no token,
400 with a token but no payload, 401 when the ASCII provided hash `ff`
differs from the ASCII digest `xx`, and 500 when the provided hash is the
non-ASCII `я`. -/
theorem c7_auth_verify_modes_witness :
    authVerify (fun _ _ => "xx") none (some "whatever") =
      .devOk "BOT_TOKEN not set — dev mode" ∧
    authVerify (fun _ _ => "xx") (some "t") none = .badRequest "initData required" ∧
    authVerify (fun _ _ => "xx") (some "t") (some "hash=ff") =
      .unauthorized "initData verification failed" ∧
    authVerify (fun _ _ => "xx") (some "t") (some "hash=яя") = .serverError :=
  ⟨c7_auth_verify_modes.1 (fun _ _ => "xx") (some "whatever"),
   c7_auth_verify_modes.2.1 (fun _ _ => "xx") "t" (by decide),
   c7_auth_verify_modes.2.2.1 (fun _ _ => "xx") "t" "hash=ff" "ff" (by decide)
     (by decide) (by decide) (by decide) (by decide) (by decide),
   c7_auth_verify_modes.2.2.2 (fun _ _ => "xx") "t" "hash=яя" "яя" (by decide)
     (by decide) (by decide) (by decide)⟩

/-- Python slicing `xs[o : o+l]` with non-negative `o` and `l` is drop
then take. -/
lemma pySlice_nonneg {α : Type} (xs : List α) (o l : Int) (ho : 0 ≤ o) (hl : 0 ≤ l) :
    pySlice xs o (o + l) = (xs.drop o.toNat).take l.toNat := by
  simp only [pySlice]
  have h1 : ¬ (o < 0) := by omega
  have h2 : ¬ (o + l < 0) := by omega
  rw [if_neg h1, if_neg h2]
  rcases le_or_lt o (xs.length : Int) with hole | hole
  · have hs : min o (xs.length : Int) = o := min_eq_left hole
    rw [hs]
    apply List.take_eq_take.mpr
    rw [List.length_drop]
    omega
  · have hs : min o (xs.length : Int) = (xs.length : Int) := min_eq_right (le_of_lt hole)
    rw [hs]
    have hd1 : xs.drop ((xs.length : Int)).toNat = [] := by
      rw [Int.toNat_natCast]
      exact List.drop_eq_nil_of_le (le_refl _)
    have hd2 : xs.drop o.toNat = [] :=
      List.drop_eq_nil_of_le (by omega)
    rw [hd1, hd2, List.take_nil, List.take_nil]

/-- C10: confirmed. For non-negative `offset` and `limit`, the paginated
reviews endpoint returns as items the contiguous sublist of the seeded
review list starting at index `offset` with at most `limit` elements,
while `total` is always the full seed count 4; an offset at or past the
end yields an empty items list (with `total` still 4 by the first part). -/
theorem c10_reviews_pagination :
    ∀ (offset limit : Int), 0 ≤ offset → 0 ≤ limit →
      getReviews DOCTOR_id offset limit =
        some ((REVIEWS.drop offset.toNat).take limit.toNat, 4) ∧
      getReviewsAlias offset limit = (REVIEWS.drop offset.toNat).take limit.toNat ∧
      (4 ≤ offset → getReviewsAlias offset limit = []) := by
  intro o l ho hl
  have hslice := pySlice_nonneg REVIEWS o l ho hl
  refine ⟨?_, ?_, ?_⟩
  · rw [getReviews, if_neg (fun h => h rfl), hslice]
    rfl
  · rw [getReviewsAlias, hslice]
  · intro h4
    rw [getReviewsAlias, hslice]
    have hlen : REVIEWS.length = 4 := rfl
    rw [List.drop_eq_nil_of_le (by omega), List.take_nil]

/-- Witness for C10: offset 2 / limit 1 returns the third review with
total 4, and offset 6 (past the end) returns no items. -/
theorem c10_reviews_pagination_witness :
    getReviews DOCTOR_id 2 1 =
      some ((REVIEWS.drop (2 : Int).toNat).take (1 : Int).toNat, 4) ∧
    getReviewsAlias 6 3 = [] :=
  ⟨(c10_reviews_pagination 2 1 (by decide) (by decide)).1,
   (c10_reviews_pagination 6 3 (by decide) (by decide)).2.2 (by decide)⟩
